import Mathlib

/-!
Shallow embedding of the conversation orchestrator of the
ai-social-campaign-generator repository (agents/orchestrator.py,
agents/brand_analyzer.py, agents/strategy_agent.py, agents/content_creator.py,
models/schemas.py).

Python strings are modeled as Lean `String` values and scanned through their
underlying character lists; ASCII case folding and the ASCII whitespace set are
used, matching the ASCII inputs the heuristics target.  Outcomes of outbound
LLM calls are explicit inputs of the model (`Option String`, `none` meaning the
call raised), so every theorem quantifies over all possible upstream behaviour.
Wall-clock timestamps and floating-point confidence scores are not observable
by any verified property and are left out of the state.  The free-form values
stored in the insights dictionary are never branched on by the code (only key
membership is), so the insights map is modeled by its ordered key list.
-/

namespace Campaign

/-- ASCII whitespace: the characters Python `str.strip` / `str.split` / `\s`
treat as spaces on the ASCII inputs the heuristics target. -/
def isPySpace (c : Char) : Bool :=
  c == ' ' || c == '\t' || c == '\n' || c == '\r' || c == '\x0B' || c == '\x0C'

def stripList (cs : List Char) : List Char :=
  ((cs.dropWhile isPySpace).reverse.dropWhile isPySpace).reverse

/-- Python `str.strip()`. -/
def pyStrip (s : String) : String := ⟨stripList s.data⟩

def lowerList (cs : List Char) : List Char := cs.map Char.toLower

/-- Python `str.lower()` (ASCII case folding). -/
def pyLower (s : String) : String := ⟨lowerList s.data⟩

/-- `dropLit lit cs` removes `lit` from the front of `cs` when it is a front
segment, returning the remainder. -/
def dropLit : List Char → List Char → Option (List Char)
  | [], cs => some cs
  | _ :: _, [] => none
  | l :: ls, c :: cs => if c == l then dropLit ls cs else none

/-- `pat` occurs as a contiguous run inside `s`. -/
def occursWithin (pat : List Char) : List Char → Bool
  | [] => pat.isEmpty
  | c :: rest => (dropLit pat (c :: rest)).isSome || occursWithin pat rest

/-- Python substring test `pat in s`. -/
def strContains (s pat : String) : Bool := occursWithin pat.data s.data

def containsChar (s : String) (c : Char) : Bool := s.data.contains c

/-- Split on a separator predicate, keeping empty segments
(the behaviour of Python `str.split(sep)`). -/
def splitOnPred (p : Char → Bool) : List Char → List (List Char)
  | [] => [[]]
  | c :: rest =>
    let r := splitOnPred p rest
    if p c then [] :: r
    else
      match r with
      | h :: t => (c :: h) :: t
      | [] => [[c]]

/-- Python `s.split(sep)` for a one-character separator. -/
def pySplitChar (s : String) (c : Char) : List String :=
  (splitOnPred (fun d => d == c) s.data).map (fun l => ⟨l⟩)

/-- Python no-argument `str.split()`: split on whitespace runs, dropping
empty segments. -/
def pyWords (s : String) : List String :=
  ((splitOnPred isPySpace s.data).filter (fun l => !l.isEmpty)).map (fun l => ⟨l⟩)

/-- Python `str.capitalize()`: first character upper-cased, rest lower-cased. -/
def pyCapitalize (s : String) : String :=
  match s.data with
  | [] => ""
  | c :: cs => ⟨c.toUpper :: lowerList cs⟩

/-- Truthiness of a Python `Optional[str]` field (`None` and `""` are falsy). -/
def optStrTruthy : Option String → Bool
  | some s => s != ""
  | none => false

/-- Truthiness of a Python `Optional[List[...]]` field (`None` and `[]` falsy). -/
def optListTruthy {α : Type} : Option (List α) → Bool
  | some l => !l.isEmpty
  | none => false

/-! ## Data model (models/schemas.py) -/

inductive Industry
  | retail | food_beverage | technology | healthcare | finance | education
  | real_estate | automotive | beauty_fashion | fitness_wellness
  | entertainment | professional_services | other
deriving DecidableEq

inductive CampaignObjective
  | brand_awareness | engagement | lead_generation | sales_conversion
  | website_traffic | app_downloads | event_promotion | customer_retention
deriving DecidableEq

inductive SocialPlatform
  | facebook | instagram | linkedin | twitter | tiktok | youtube | pinterest
deriving DecidableEq

inductive ConversationStage
  | greeting | discovery | brand_analysis | strategy_development
  | content_creation | review_refinement | finalization
deriving DecidableEq

/-- The `.value` string of the `ConversationStage` enum. -/
def ConversationStage.value : ConversationStage → String
  | .greeting => "greeting"
  | .discovery => "discovery"
  | .brand_analysis => "brand_analysis"
  | .strategy_development => "strategy_development"
  | .content_creation => "content_creation"
  | .review_refinement => "review_refinement"
  | .finalization => "finalization"

/-- Position of a stage in the canonical ordering of the spec
(greeting, discovery, brand_analysis, strategy_development, content_creation,
review_refinement, finalization). -/
def stageIndex : ConversationStage → Nat
  | .greeting => 0
  | .discovery => 1
  | .brand_analysis => 2
  | .strategy_development => 3
  | .content_creation => 4
  | .review_refinement => 5
  | .finalization => 6

inductive MessageRole
  | user | assistant | system
deriving DecidableEq

/-- `ConversationMessage` (the timestamp is not observable by any verified
property and is omitted). -/
structure ConversationMessage where
  role : MessageRole
  content : String
deriving DecidableEq

structure CompanyInfo where
  name : String
  industry : Option Industry := none
  description : Option String := none
  target_audience : Option String := none
  brand_voice : Option String := none
  brand_values : Option (List String) := none
  unique_selling_points : Option (List String) := none
  competitors : Option (List String) := none
  website : Option String := none
deriving DecidableEq

structure CampaignGoals where
  primary_objective : Option CampaignObjective := none
  secondary_objectives : Option (List CampaignObjective) := none
  target_platforms : Option (List SocialPlatform) := none
  budget_range : Option String := none
  duration_weeks : Option Nat := none
  specific_requirements : Option String := none
deriving DecidableEq

structure SocialPost where
  platform : SocialPlatform
  content : String
  hashtags : List String := []
  image_prompt : Option String := none
  image_url : Option String := none
  call_to_action : Option String := none
  post_type : String := "standard"
  optimal_timing : Option String := none
  engagement_hooks : List String := []
deriving DecidableEq

structure CampaignStrategy where
  executive_summary : String
  target_audience_analysis : String
  content_pillars : List String := []
  brand_positioning : String
  competitive_differentiation : String
  key_messages : List String := []
  success_metrics : List String := []
deriving DecidableEq

structure CampaignOutput where
  strategy : CampaignStrategy
  posts : List SocialPost := []
  hashtag_strategy : Option String := none
deriving DecidableEq

/-- `ConversationContext`.  `extracted_insights` is the ordered key list of the
insights dictionary (the code only ever tests key membership and inserts keys;
the attached values are never branched on). -/
structure ConversationContext where
  session_id : String
  current_stage : ConversationStage := .greeting
  messages : List ConversationMessage := []
  company_info : CompanyInfo
  campaign_goals : CampaignGoals := {}
  extracted_insights : List String := []
  pending_questions : List String := []
  campaign_output : Option CampaignOutput := none
deriving DecidableEq

/-- `AgentResponse` (the floating-point `confidence_score` and the free-form
`metadata` dictionary are not observable by any verified property). -/
structure AgentResponse where
  message : String
  questions : List String := []
  suggestions : List String := []
  next_stage : Option ConversationStage := none
  requires_clarification : Bool := false
deriving DecidableEq

/-! ## Message history (`_add_message`) -/

/-- The last `n` entries of a list, in order (Python `l[-n:]` for `n ≤ l.length`). -/
def lastN {α : Type} (n : Nat) (l : List α) : List α := l.drop (l.length - n)

/-- `_add_message`: append, then prune to the last 40 entries once the history
exceeds 50 entries. -/
def addMessage (msgs : List ConversationMessage) (m : ConversationMessage) :
    List ConversationMessage :=
  if (msgs ++ [m]).length > 50 then lastN 40 (msgs ++ [m]) else msgs ++ [m]

/-! ## Comprehensive-info heuristic (`_user_provided_comprehensive_info`) -/

/-- The regex search for `\d+\.\s` on the message: some position holds a digit immediately
followed by a period and a whitespace character. -/
def hasNumberedMarker : List Char → Bool
  | [] => false
  | c :: rest =>
    (match rest with
     | c2 :: c3 :: _ => c.isDigit && c2 == '.' && isPySpace c3
     | _ => false) || hasNumberedMarker rest

/-- `_user_provided_comprehensive_info`. -/
def userProvidedComprehensiveInfo (message : String) : Bool :=
  let has_numbers := hasNumberedMarker message.data
  let is_long := decide (message.data.length > 100)
  let has_multiple_details :=
    decide (message.data.count '.' > 3) || decide (message.data.count ',' > 3)
  has_numbers || (is_long && has_multiple_details)

/-! ## Keyword extraction (`_extract_information`) -/

def nameKeywords : List String := ["sell", "run", "business", "company"]

/-- Inner loop of the company-name heuristic: scanning word pairs left to
right, the first keyword hit whose preceding word is longer than 2 characters
yields that word, capitalized. -/
def scanNameWords : List String → Option String
  | [] => none
  | w0 :: rest =>
    match rest with
    | [] => none
    | w1 :: _ =>
      if nameKeywords.contains (pyLower w1) && decide (w0.length > 2) then
        some (pyCapitalize w0)
      else scanNameWords rest

def businessTypes : List (String × String) :=
  [("bread", "Food & Bakery"), ("food", "Food & Restaurant"),
   ("restaurant", "Food & Restaurant"), ("clothing", "Fashion & Retail"),
   ("tech", "Technology"), ("software", "Technology"),
   ("consulting", "Professional Services"), ("fitness", "Health & Fitness"),
   ("beauty", "Beauty & Wellness"), ("antique", "Antiques & Collectibles"),
   ("chairs", "Furniture & Antiques"), ("furniture", "Furniture & Home Decor")]

def audienceKeywords : List (String × String) :=
  [("young", "Young adults"), ("families", "Families"),
   ("professionals", "Working professionals"), ("students", "Students"),
   ("seniors", "Seniors"), ("women", "Women"), ("men", "Men"),
   ("collectors", "Collectors and enthusiasts")]

/-- First table entry whose keyword occurs in the lower-cased message
(Python dict iteration is insertion-ordered). -/
def firstKeywordMatch (table : List (String × String)) (lower : String) :
    Option String :=
  (table.find? (fun kv => strContains lower kv.1)).map (·.2)

/-- Company-name block of `_extract_information` (guarded on the name being
unset and on one of the trigger phrases being present). -/
def extractNameStep (ci : CompanyInfo) (msg lower : String) : CompanyInfo :=
  if ci.name == "" &&
      (strContains lower "i sell" || strContains lower "i run" ||
       strContains lower "my business") then
    match scanNameWords (pyWords msg) with
    | some n => { ci with name := n }
    | none => ci
  else ci

/-- Business-type block of `_extract_information`. -/
def extractDescStep (ci : CompanyInfo) (lower : String) : CompanyInfo :=
  if !optStrTruthy ci.description then
    match firstKeywordMatch businessTypes lower with
    | some d => { ci with description := some d }
    | none => ci
  else ci

/-- Target-audience block of `_extract_information`. -/
def extractAudStep (ci : CompanyInfo) (lower : String) : CompanyInfo :=
  if !optStrTruthy ci.target_audience then
    match firstKeywordMatch audienceKeywords lower with
    | some a => { ci with target_audience := some a }
    | none => ci
  else ci

/-- `_extract_information`, non-structured path (only `company_info` fields
are touched on this path). -/
def extractUnstructured (ci : CompanyInfo) (msg : String) : CompanyInfo :=
  extractAudStep (extractDescStep (extractNameStep ci msg (pyLower msg))
    (pyLower msg)) (pyLower msg)

/-! ## Structured extraction (`_extract_structured_information`) -/

def insertKey (keys : List String) (k : String) : List String :=
  if keys.contains k then keys else keys ++ [k]

def structNameStep (ci : CompanyInfo) (lower : String) : CompanyInfo :=
  if strContains lower "proteinrx" then { ci with name := "ProteinRX" }
  else if strContains lower "ccc" then { ci with name := "CCC" }
  else ci

def structDescStep (ci : CompanyInfo) (lower : String) : CompanyInfo :=
  if strContains lower "protein" && strContains lower "smoothie" then
    { ci with description := some "Health & Fitness - Protein Smoothie Drinks" }
  else if strContains lower "protein" && strContains lower "drink" then
    { ci with description := some "Health & Fitness - Protein Beverages" }
  else if strContains lower "antique" && strContains lower "chairs" then
    { ci with description := some "Antiques & Collectibles" }
  else ci

def structAudStep (ci : CompanyInfo) (msg lower : String) : CompanyInfo :=
  if strContains lower "gym" && (strContains msg "20-45" || strContains lower "age") then
    { ci with target_audience := some "Gym-goers and fitness enthusiasts (20-45 years old)" }
  else if strContains lower "collectors" then
    { ci with target_audience := some "Collectors and enthusiasts" }
  else ci

def structVoiceStep (ci : CompanyInfo) (lower : String) : CompanyInfo :=
  if strContains lower "luxury" && strContains lower "strong" then
    { ci with brand_voice := some "Luxury and strong" }
  else ci

def structUspsStep (ci : CompanyInfo) (lower : String) : CompanyInfo :=
  let pts :=
    (if strContains lower "accessible" && strContains lower "canned" then
      ["Convenient canned format for accessibility"] else []) ++
    (if strContains lower "everywhere" then ["Available everywhere"] else [])
  if !pts.isEmpty then { ci with unique_selling_points := some pts } else ci

def structCompetitorStep (ci : CompanyInfo) (lower : String) : CompanyInfo :=
  if strContains lower "traditional protein powder" || strContains lower "protein powder" then
    { ci with competitors := some ["Traditional protein powder brands"] }
  else ci

def structObjectiveStep (g : CampaignGoals) (lower : String) : CampaignGoals :=
  if strContains lower "brand awareness" then
    { g with primary_objective := some .brand_awareness }
  else if strContains lower "online presence" then
    { g with primary_objective := some .brand_awareness }
  else if strContains lower "sales" then
    { g with primary_objective := some .sales_conversion }
  else g

def structPlatformStep (g : CampaignGoals) (lower : String) : CampaignGoals :=
  if strContains lower "instagram" then { g with target_platforms := some [.instagram] }
  else if strContains lower "facebook" then { g with target_platforms := some [.facebook] }
  else g

def structAssetsStep (keys : List String) (lower : String) : List String :=
  if (strContains lower "red and black" ||
      (strContains lower "red" && strContains lower "black")) ||
     strContains lower "lato" ||
     strContains lower "dumbbell" || strContains lower "dumbell" then
    insertKey keys "brand_assets"
  else keys

/-! Budget regex `\$?\s*(\d+)\s*(?:per\s*day|/day|daily)` searched in the lower-cased message:
a deterministic scanner (the regex never needs backtracking here because no
digit or separator character is whitespace). -/

def budgetTail (cs : List Char) : Bool :=
  (match dropLit "per".data cs with
   | some r => (dropLit "day".data (r.dropWhile isPySpace)).isSome
   | none => false) ||
  (dropLit "/day".data cs).isSome ||
  (dropLit "daily".data cs).isSome

def budgetAt (cs : List Char) : Option (List Char) :=
  let cs1 := match cs with | '$' :: r => r | _ => cs
  let cs2 := cs1.dropWhile isPySpace
  let ds := cs2.takeWhile Char.isDigit
  if ds.isEmpty then none
  else if budgetTail ((cs2.dropWhile Char.isDigit).dropWhile isPySpace) then some ds
  else none

/-- Leftmost match of the budget regex on the lower-cased message, returning
the captured digit group. -/
def findBudget : List Char → Option String
  | [] => none
  | c :: rest =>
    match budgetAt (c :: rest) with
    | some ds => some ⟨ds⟩
    | none => findBudget rest

def structBudgetStep (g : CampaignGoals) (lower : String) : CampaignGoals :=
  match findBudget lower.data with
  | some ds => { g with budget_range := some ("$" ++ ds ++ "/day") }
  | none => g

/-- `_extract_structured_information`.  `parseOutcome` is the result of the
LLM parsing call; `none` means that call raised, in which case the
function-level `except` swallows the error before any field is assigned. -/
def extractStructured (ctx : ConversationContext) (msg : String)
    (parseOutcome : Option String) : ConversationContext :=
  match parseOutcome with
  | none => ctx
  | some _ =>
    let lower := pyLower msg
    let keys := insertKey (insertKey ctx.extracted_insights "structured_response")
      "parsed_info"
    let ci := structCompetitorStep (structUspsStep (structVoiceStep
      (structAudStep (structDescStep (structNameStep ctx.company_info lower) lower)
        msg lower) lower) lower) lower
    let g := structBudgetStep (structPlatformStep
      (structObjectiveStep ctx.campaign_goals lower) lower) lower
    let keys := structAssetsStep keys lower
    { ctx with company_info := ci, campaign_goals := g, extracted_insights := keys }

/-- `_extract_information` (routes comprehensive messages to the structured
extractor; its own `except` is unreachable in this pure model because the one
call that can raise is handled inside `extractStructured`). -/
def extractInformation (ctx : ConversationContext) (msg : String)
    (parseOutcome : Option String) : ConversationContext :=
  if userProvidedComprehensiveInfo msg then extractStructured ctx msg parseOutcome
  else { ctx with company_info := extractUnstructured ctx.company_info msg }

/-! ## Brand analyzer (`BrandAnalyzer.analyze_conversation`) -/

def discoveryTurns (ctx : ConversationContext) : Nat :=
  (ctx.messages.filter (fun m => m.role == MessageRole.user)).length

/-- `has_basic_info` in `analyze_conversation`: the name or the description is
truthy. -/
def hasBasicInfoBA (ctx : ConversationContext) : Bool :=
  ctx.company_info.name != "" || optStrTruthy ctx.company_info.description

/-- `_identify_missing_information`. -/
def identifyMissingInformation (ctx : ConversationContext) : List String :=
  let c := ctx.company_info
  (if c.name == "" || c.industry.isNone then ["business_basics"] else []) ++
  (if !optStrTruthy c.target_audience then ["target_audience"] else []) ++
  (if !optStrTruthy c.brand_voice && !optListTruthy c.brand_values then
    ["brand_identity"] else []) ++
  (if !optListTruthy c.competitors then ["competitive_landscape"] else []) ++
  (if ctx.campaign_goals.primary_objective.isNone then ["goals_objectives"] else [])

/-- `_get_fallback_questions`. -/
def fallbackQuestions (category : String) : List String :=
  if category == "business_basics" then
    ["That sounds interesting! What makes your bread special compared to others?"]
  else if category == "target_audience" then
    ["Who do you typically sell to - local families, restaurants, or other customers?"]
  else if category == "brand_identity" then
    ["What\x27s most important to you about how customers see your business?"]
  else if category == "competitive_landscape" then
    ["Are there other bread sellers in your area you compete with?"]
  else if category == "goals_objectives" then
    ["What would you like to achieve with social media for your business?"]
  else ["That\x27s great! Tell me more about what kind of bread you make."]

/-- Question extraction in `_generate_discovery_questions`: split the reply on
periods, keep stripped sentences containing a question mark (truncated at the
first question mark), take the first two; an empty harvest falls back to the
whole stripped reply. -/
def questionsFromResponse (r : String) : List String :=
  let qs := (pySplitChar r '.').foldr (fun s acc =>
    let t := pyStrip s
    if containsChar t '?' then
      pyStrip ⟨((splitOnPred (fun c => c == '?') t.data).headD []) ++ ['?']⟩ :: acc
    else acc) []
  if qs.isEmpty then [pyStrip r] else qs.take 2

/-- `_generate_discovery_questions` (`outcome` is the LLM reply, `none` if the
call raised, which falls back to the canned per-category questions). -/
def generateDiscoveryQuestions (missing : List String) (outcome : Option String) :
    List String :=
  match outcome with
  | some r => questionsFromResponse r
  | none => fallbackQuestions (missing.headD "general")

/-- `_format_discovery_message`. -/
def formatDiscoveryMessage (qs : List String) : String := String.intercalate " " qs

/-- `BrandAnalyzer.analyze_conversation`.  `qOutcome` / `sOutcome` are the
outcomes of the question-generation and transition-summary LLM calls; every
failure of those calls is caught inside the function, and each branch of its
outer `except` also advances to strategy development, exactly like the
`sOutcome = none` branch. -/
def analyzeConversation (ctx : ConversationContext)
    (qOutcome sOutcome : Option String) : AgentResponse :=
  let missing := identifyMissingInformation ctx
  if !missing.isEmpty && decide (discoveryTurns ctx < 3) && !hasBasicInfoBA ctx then
    let qs := generateDiscoveryQuestions missing qOutcome
    { message := formatDiscoveryMessage qs, questions := qs,
      next_stage := some .discovery, requires_clarification := true }
  else
    match sOutcome with
    | some r =>
      { message := r, next_stage := some .strategy_development,
        requires_clarification := false }
    | none =>
      { message := "Perfect! I have enough information about your business. Let me create a social media strategy for you now.",
        next_stage := some .strategy_development, requires_clarification := false }

/-! ## Strategy agent (`StrategyAgent.develop_strategy`) -/

/-- `_has_sufficient_info_for_strategy` (Python truthiness of each entry of
`required_info`). -/
def hasSufficientInfoForStrategy (ctx : ConversationContext) : Bool :=
  let c := ctx.company_info
  let g := ctx.campaign_goals
  (c.name != "") &&
  (c.industry.isSome || optStrTruthy c.description) &&
  optStrTruthy c.target_audience &&
  (g.primary_objective.isSome || optListTruthy g.target_platforms)

/-- `_get_strategy_clarification_questions` (at most 2 questions). -/
def strategyClarificationQuestions (ctx : ConversationContext) : List String :=
  ((if ctx.campaign_goals.primary_objective.isNone then
      ["What\x27s your main goal for social media - increasing brand awareness, generating leads, or driving sales?"]
    else []) ++
   (if !optListTruthy ctx.campaign_goals.target_platforms then
      ["Which social media platforms are most important for reaching your target audience?"]
    else []) ++
   (if !optStrTruthy ctx.campaign_goals.budget_range then
      ["What\x27s your approximate monthly budget for social media marketing?"]
    else [])).take 2

def strategyInsightKeys : List String :=
  ["campaign_strategy", "content_pillars", "platform_strategy", "kpi_framework"]

/-- `StrategyAgent.develop_strategy`.  Every LLM call on the generation path
catches its own exception and falls back to a canned string, so the stage
decision depends only on the sufficiency check.  The generated narrative texts
are stored as insight values, which the model tracks by key; the conversational
summary is modeled by the fixed skeleton of `_format_strategy_summary`. -/
def developStrategy (ctx : ConversationContext) :
    AgentResponse × ConversationContext :=
  if !hasSufficientInfoForStrategy ctx then
    ({ message := "I need a bit more information to develop an effective strategy. What are your primary goals for social media marketing?",
       questions := strategyClarificationQuestions ctx,
       requires_clarification := true }, ctx)
  else
    ({ message := "Perfect! I\x27ve developed a comprehensive social media strategy for you.",
       next_stage := some .content_creation, requires_clarification := false },
     { ctx with extracted_insights :=
        strategyInsightKeys.foldl insertKey ctx.extracted_insights })

/-! ## Content creator (`ContentCreator`) -/

/-- `_has_strategy_foundation`. -/
def hasStrategyFoundation (ctx : ConversationContext) : Bool :=
  ctx.extracted_insights.contains "campaign_strategy" &&
  ctx.extracted_insights.contains "content_pillars"

inductive PostSection
  | content | hashtags | cta | image_prompt | timing
deriving DecidableEq

/-- Result dictionary of `_parse_post_content`. -/
structure ParsedPost where
  content : String
  hashtags : List String
  cta : String
  image_prompt : String
  post_type : String
  timing : String
  engagement_hooks : List String
deriving DecidableEq

structure ScanState where
  sec : PostSection
  content : String
  hashtags : List String
  cta : String
  image_prompt : String
  timing : String
deriving DecidableEq

/-- Section switching of `_parse_post_content` (first matching keyword wins;
the hashtag switch additionally needs a colon on the line). -/
def sectionFor (lowerLine line : String) : Option PostSection :=
  if strContains lowerLine "hashtag" && containsChar line ':' then some .hashtags
  else if strContains lowerLine "call to action" || strContains lowerLine "cta" then
    some .cta
  else if strContains lowerLine "visual" || strContains lowerLine "image" then
    some .image_prompt
  else if strContains lowerLine "timing" then some .timing
  else none

/-- Python `str.strip` with the hash character as the strip set. -/
def stripHashes (w : String) : String :=
  ⟨((w.data.dropWhile (fun c => c == '#')).reverse.dropWhile
      (fun c => c == '#')).reverse⟩

/-- Hashtag harvesting: whitespace tokens beginning with `#`, hash-stripped. -/
def lineHashtags (line : String) : List String :=
  ((pyWords line).filter (fun w =>
    match w.data with | '#' :: _ => true | _ => false)).map stripHashes

/-- The keyword screen applied to lines landing in the content section. -/
def contentLineBlocked (lowerLine : String) : Bool :=
  strContains lowerLine "hashtag" || strContains lowerLine "cta" ||
  strContains lowerLine "visual" || strContains lowerLine "image"

/-- One line of the `_parse_post_content` scan. -/
def scanLine (st : ScanState) (rawLine : String) : ScanState :=
  let line := pyStrip rawLine
  if line == "" then st
  else
    let lower := pyLower line
    match sectionFor lower line with
    | some s => { st with sec := s }
    | none =>
      match st.sec with
      | .content =>
        if !contentLineBlocked lower then
          { st with content := st.content ++ line ++ " " }
        else st
      | .hashtags => { st with hashtags := st.hashtags ++ lineHashtags line }
      | .cta => { st with cta := st.cta ++ line ++ " " }
      | .image_prompt =>
        { st with image_prompt := st.image_prompt ++ line ++ " " }
      | .timing => { st with timing := st.timing ++ line ++ " " }

def initScan : ScanState := ⟨.content, "", [], "", "", ""⟩

def scanLines (reply : String) : ScanState :=
  (pySplitChar reply '\n').foldl scanLine initScan

/-- `_parse_post_content` (its trailing exception fallback is unreachable in
this pure model; `platform` is accepted and ignored exactly as in the code). -/
def parsePostContent (reply : String) (platform : SocialPlatform) : ParsedPost :=
  let st := scanLines reply
  let c := pyStrip st.content
  { content := if c == "" then pyStrip reply else c,
    hashtags := st.hashtags,
    cta := pyStrip st.cta,
    image_prompt := pyStrip st.image_prompt,
    post_type := "standard",
    timing := pyStrip st.timing,
    engagement_hooks := [] }

/-- `_create_strategy_object` (narrative insight values are unmodeled; the
fields that interpolate them take the fallback strings of the code). -/
def createStrategyObject (ctx : ConversationContext) : CampaignStrategy :=
  { executive_summary := "Comprehensive social media strategy developed",
    target_audience_analysis :=
      if optStrTruthy ctx.company_info.target_audience then
        ctx.company_info.target_audience.getD ""
      else "Target audience analysis completed",
    brand_positioning := "Strategic positioning for " ++ ctx.company_info.name,
    competitive_differentiation := "Unique brand differentiation strategy",
    key_messages := ["Brand awareness", "Audience engagement", "Community building"],
    success_metrics := ["Engagement rate", "Reach", "Brand awareness", "Conversions"] }

/-- `ContentCreator.create_campaign_content`.  The per-(platform, pillar)
fan-out, visual enrichment and hashtag-strategy calls each catch their own
failures and every surviving result is a `SocialPost`, so the posts that come
back are an input of the model (`genPosts`, `hashtagStrategy`).
`contentRaises` models an exception escaping the body into the function-level
`except`, which is only reachable after the foundation check. -/
def createCampaignContent (ctx : ConversationContext) (genPosts : List SocialPost)
    (hashtagStrategy : String) (contentRaises : Bool) :
    AgentResponse × ConversationContext :=
  if !hasStrategyFoundation ctx then
    ({ message := "I need the strategy foundation before creating content. Let me develop that first.",
       requires_clarification := true }, ctx)
  else if contentRaises then
    ({ message := "I\x27m creating your social media content now. This might take a moment to ensure everything is perfectly crafted for your brand.",
       requires_clarification := false }, ctx)
  else
    let out : CampaignOutput :=
      { strategy := createStrategyObject ctx, posts := genPosts,
        hashtag_strategy := some hashtagStrategy }
    ({ message := "I\x27ve created your social media posts for your campaign!",
       next_stage := some .review_refinement, requires_clarification := false },
     { ctx with campaign_output := some out })

/-! ## Remaining orchestrator stage handlers -/

def greetingText : String :=
  "Hi! I\x27m your dedicated marketing consultant for ProteinRX. I know all about your luxury protein smoothie brand - the convenient canned drinks targeting gym-goers (20-45), your red & black branding with the dumbbell logo, and focus on Instagram for brand awareness. Do you have any specific campaign ideas or themes you\x27d like to implement for ProteinRX?"

/-- `_handle_greeting_stage`; `o1` / `o2` are the outcomes of the nested
campaign-generation calls (every branch that sees a user message advances to
strategy development). -/
def handleGreetingStage (ctx : ConversationContext) (o1 o2 : Option String) :
    AgentResponse :=
  match ctx.messages.getLast? with
  | some m =>
    if m.role == MessageRole.user then
      match o1 with
      | some r =>
        { message := r, next_stage := some .strategy_development,
          requires_clarification := false }
      | none =>
        match o2 with
        | some r =>
          { message := r, next_stage := some .strategy_development,
            requires_clarification := false }
        | none =>
          { message := "I encountered an error generating campaigns. Let me try a different approach for your campaign idea.",
            next_stage := some .strategy_development, requires_clarification := false }
    else { message := greetingText, requires_clarification := true }
  | none => { message := greetingText, requires_clarification := true }

/-- `_handle_review_stage` (the review message interpolates post counts, which
are not observable by any verified property). -/
def handleReviewStage (ctx : ConversationContext) : AgentResponse :=
  match ctx.campaign_output with
  | none =>
    { message := "I\x27m still working on your campaign content. Let me finish that up for you.",
      next_stage := some .content_creation, requires_clarification := false }
  | some _ =>
    { message := "Perfect! I\x27ve created your complete social media campaign. What would you prefer?",
      suggestions := ["Show me the posts", "Adjust the content style",
                      "Add more platforms", "Finalize the campaign"],
      next_stage := some .finalization, requires_clarification := true }

/-- `_handle_finalization_stage` (the final summary interpolates campaign
details, which are not observable by any verified property). -/
def handleFinalizationStage (ctx : ConversationContext) : AgentResponse :=
  match ctx.campaign_output with
  | none =>
    { message := "Let me complete your campaign first.",
      next_stage := some .content_creation, requires_clarification := false }
  | some _ =>
    { message := "Your Social Media Campaign is Ready!",
      requires_clarification := false }

/-! ## Orchestrator turn (`continue_conversation`) -/

/-- The outcomes of the outbound LLM calls a single turn can make (`none`
means the call raised), plus the two points where an exception can escape into
a catch-all.  Every theorem quantifies over this oracle. -/
structure TurnOracle where
  handlerRaises : Bool := false
  compAck : Option String := none
  structParse : Option String := none
  greet1 : Option String := none
  greet2 : Option String := none
  brandQ : Option String := none
  brandSum : Option String := none
  genPosts : List SocialPost := []
  hashtagStrategy : String := ""
  contentRaises : Bool := false
deriving DecidableEq

/-- `_process_conversation_stage` with its catch-all `except`
(`handlerRaises` = an exception escaping the dispatched handler; the fallback
keeps the stage). -/
def processConversationStage (ctx : ConversationContext) (o : TurnOracle) :
    AgentResponse × ConversationContext :=
  if o.handlerRaises then
    ({ message := "I\x27m analyzing your information. Could you tell me more about your business goals?",
       requires_clarification := true }, ctx)
  else
    match ctx.current_stage with
    | .greeting => (handleGreetingStage ctx o.greet1 o.greet2, ctx)
    | .discovery => (analyzeConversation ctx o.brandQ o.brandSum, ctx)
    | .brand_analysis => (analyzeConversation ctx o.brandQ o.brandSum, ctx)
    | .strategy_development => developStrategy ctx
    | .content_creation =>
      createCampaignContent ctx o.genPosts o.hashtagStrategy o.contentRaises
    | .review_refinement => (handleReviewStage ctx, ctx)
    | .finalization => (handleFinalizationStage ctx, ctx)

/-- The comprehensive-input branch of `continue_conversation` (both the
success and the exception arm advance to strategy development). -/
def comprehensiveResponse (ack : Option String) : AgentResponse :=
  match ack with
  | some r =>
    { message := r, next_stage := some .strategy_development,
      requires_clarification := false }
  | none =>
    { message := "Perfect! I have all the information I need about your antique chair business. Let me create a comprehensive social media strategy for you now.",
      next_stage := some .strategy_development, requires_clarification := false }

/-- Tail of `continue_conversation`: append the assistant message, then adopt
the proposed stage if there is one. -/
def finishTurn (ctx : ConversationContext) (resp : AgentResponse) :
    AgentResponse × ConversationContext :=
  let ctx1 := { ctx with messages := addMessage ctx.messages ⟨.assistant, resp.message⟩ }
  match resp.next_stage with
  | some s => (resp, { ctx1 with current_stage := s })
  | none => (resp, ctx1)

/-- The body of `continue_conversation` for a session that was found: append
the user message, extract facts, then either take the comprehensive-input
short-circuit or dispatch on the current stage. -/
def runTurn (ctx : ConversationContext) (msg : String) (o : TurnOracle) :
    AgentResponse × ConversationContext :=
  let ctx1 := { ctx with messages := addMessage ctx.messages ⟨.user, msg⟩ }
  let ctx2 := extractInformation ctx1 msg o.structParse
  if userProvidedComprehensiveInfo msg then
    finishTurn { ctx2 with current_stage := .strategy_development }
      (comprehensiveResponse o.compAck)
  else
    let pr := processConversationStage ctx2 o
    finishTurn pr.2 pr.1

/-- The response dictionary of `continue_conversation` (fields absent from a
branch are `none`; `confidence` and `metadata` are unmodeled). -/
structure ContinueResponse where
  session_id : Option String := none
  error : Option String := none
  message : Option String := none
  stage : Option String := none
  questions : Option (List String) := none
  suggestions : Option (List String) := none
  requires_clarification : Option Bool := none
  status : String
deriving DecidableEq

abbrev SessionStore := List (String × ConversationContext)

def storeSet (store : SessionStore) (sid : String) (ctx : ConversationContext) :
    SessionStore :=
  store.map (fun p => if p.1 == sid then (sid, ctx) else p)

/-- `continue_conversation` over the session store.  The outer try/except is
unreachable in the model because every failure of an outbound call is caught
where it happens (all of those catches are represented in the handlers). -/
def continueConversation (store : SessionStore) (sid : String) (msg : String)
    (o : TurnOracle) : ContinueResponse × SessionStore :=
  match store.lookup sid with
  | none => ({ error := some "Session not found", status := "error" }, store)
  | some ctx =>
    let r := runTurn ctx msg o
    ({ session_id := some sid, message := some r.1.message,
       stage := some r.2.current_stage.value,
       questions := some r.1.questions, suggestions := some r.1.suggestions,
       requires_clarification := some r.1.requires_clarification,
       status := "active" }, storeSet store sid r.2)

/-! ## Session creation (`start_conversation`) -/

def proteinrxCompany : CompanyInfo :=
  { name := "ProteinRX", industry := some .fitness_wellness,
    description := some "Health & Fitness - Protein Smoothie Drinks",
    target_audience := some "Gym-goers and fitness enthusiasts (20-45 years old)",
    brand_voice := some "Luxury and strong",
    unique_selling_points := some ["Convenient canned format for accessibility",
                                   "Available everywhere"],
    competitors := some ["Traditional protein powder brands"] }

def proteinrxGoals : CampaignGoals :=
  { primary_objective := some .brand_awareness,
    target_platforms := some [.instagram] }

/-- `start_conversation` (the greeting is the static template of
`_generate_greeting`; the session identifier is a parameter in place of the
generated UUID). -/
def startConversation (sid : String) : ConversationContext :=
  let ctx : ConversationContext :=
    { session_id := sid, current_stage := .greeting, messages := [],
      company_info := proteinrxCompany, campaign_goals := proteinrxGoals,
      extracted_insights := ["brand_assets"], pending_questions := [] }
  { ctx with messages := addMessage ctx.messages ⟨.assistant, greetingText⟩ }

/-! ## Helper lemmas -/

lemma extractInformation_stage (ctx : ConversationContext) (msg : String)
    (po : Option String) :
    (extractInformation ctx msg po).current_stage = ctx.current_stage := by
  unfold extractInformation extractStructured
  split
  · cases po <;> rfl
  · rfl

lemma extractInformation_output (ctx : ConversationContext) (msg : String)
    (po : Option String) :
    (extractInformation ctx msg po).campaign_output = ctx.campaign_output := by
  unfold extractInformation extractStructured
  split
  · cases po <;> rfl
  · rfl

lemma finishTurn_stage (ctx : ConversationContext) (resp : AgentResponse) :
    (finishTurn ctx resp).2.current_stage = resp.next_stage.getD ctx.current_stage := by
  unfold finishTurn
  cases h : resp.next_stage <;> simp [h]

lemma comprehensiveResponse_next (a : Option String) :
    (comprehensiveResponse a).next_stage = some .strategy_development := by
  cases a <;> rfl

lemma lookup_storeSet (store : SessionStore) (sid : String)
    (ctx : ConversationContext) (h : (store.lookup sid).isSome) :
    (storeSet store sid ctx).lookup sid = some ctx := by
  induction store with
  | nil => simp [List.lookup] at h
  | cons p rest ih =>
    simp only [storeSet, List.map_cons]
    by_cases hp : p.1 = sid
    · have hps : (p.1 == sid) = true := beq_iff_eq.mpr hp
      simp only [hps, if_true]
      simp [List.lookup]
    · have hps : (p.1 == sid) = false := beq_eq_false_iff_ne.mpr hp
      have hsp : (sid == p.1) = false := beq_eq_false_iff_ne.mpr (Ne.symm hp)
      simp only [hps, Bool.false_eq_true, if_false]
      have h2 : (rest.lookup sid).isSome := by
        simp only [List.lookup, hsp] at h
        exact h
      simpa [List.lookup, hsp, storeSet] using ih h2

/-- C5: `continue_conversation` on an unknown identifier returns a response
whose status is "error" (with the "Session not found" payload) and leaves the
session store untouched; in this total model the call cannot raise. -/
theorem c5_unknown_session_error (store : SessionStore) (sid msg : String)
    (o : TurnOracle) (h : store.lookup sid = none) :
    (continueConversation store sid msg o).1.status = "error" ∧
    (continueConversation store sid msg o).1.error = some "Session not found" ∧
    (continueConversation store sid msg o).2 = store := by
  unfold continueConversation
  rw [h]
  exact ⟨rfl, rfl, rfl⟩

/-- C5 witness: the empty store at a concrete identifier. -/
theorem c5_witness :
    ([] : SessionStore).lookup "missing" = none ∧
    (continueConversation [] "missing" "hello" {}).1.status = "error" ∧
    (continueConversation [] "missing" "hello" {}).2 = [] :=
  ⟨rfl, (c5_unknown_session_error [] "missing" "hello" {} rfl).1,
    (c5_unknown_session_error [] "missing" "hello" {} rfl).2.2⟩

/-- C6: after any append the history never exceeds 50 entries, and whenever an
append pushes the length beyond 50 the history becomes exactly the last 40
entries of the appended list, in order. -/
theorem c6_history_cap (msgs : List ConversationMessage) (m : ConversationMessage) :
    (addMessage msgs m).length ≤ 50 ∧
    ((msgs ++ [m]).length > 50 →
      addMessage msgs m = lastN 40 (msgs ++ [m]) ∧ (addMessage msgs m).length = 40) := by
  unfold addMessage lastN
  split
  · next h =>
    refine ⟨?_, fun _ => ⟨rfl, ?_⟩⟩ <;>
      · simp only [List.length_drop, List.length_append, List.length_cons,
          List.length_nil] at *
        omega
  · next h =>
    refine ⟨?_, fun h2 => absurd h2 h⟩
    simp only [List.length_append, List.length_cons, List.length_nil] at *
    omega

def witnessMsg : ConversationMessage := ⟨.user, "hi"⟩

/-- C6 witness: appending to a 50-entry history prunes to the last 40. -/
theorem c6_witness :
    ((List.replicate 50 witnessMsg) ++ [witnessMsg]).length > 50 ∧
    (addMessage (List.replicate 50 witnessMsg) witnessMsg).length = 40 :=
  ⟨by simp, ((c6_history_cap (List.replicate 50 witnessMsg) witnessMsg).2 (by simp)).2⟩

/-- C8: in the content-creation handler, a missing `campaign_strategy` or
`content_pillars` insight key yields a clarification response with no stage
transition and leaves the campaign output unset. -/
theorem c8_content_requires_foundation (ctx : ConversationContext)
    (posts : List SocialPost) (hs : String) (cr : Bool)
    (h : ctx.extracted_insights.contains "campaign_strategy" = false ∨
         ctx.extracted_insights.contains "content_pillars" = false)
    (h0 : ctx.campaign_output = none) :
    (createCampaignContent ctx posts hs cr).1.requires_clarification = true ∧
    (createCampaignContent ctx posts hs cr).1.next_stage = none ∧
    (createCampaignContent ctx posts hs cr).2.campaign_output = none := by
  have hf : hasStrategyFoundation ctx = false := by
    unfold hasStrategyFoundation
    rcases h with h | h
    · rw [h, Bool.false_and]
    · rw [h, Bool.and_false]
  unfold createCampaignContent
  rw [hf]
  exact ⟨rfl, rfl, h0⟩

def ctxNoFoundation : ConversationContext :=
  { session_id := "w8", current_stage := .content_creation,
    company_info := { name := "" } }

/-- C8 witness: a content-creation context with an empty insights map. -/
theorem c8_witness :
    ctxNoFoundation.extracted_insights.contains "campaign_strategy" = false ∧
    (createCampaignContent ctxNoFoundation [] "" false).1.requires_clarification = true ∧
    (createCampaignContent ctxNoFoundation [] "" false).1.next_stage = none ∧
    (createCampaignContent ctxNoFoundation [] "" false).2.campaign_output = none :=
  ⟨rfl, c8_content_requires_foundation ctxNoFoundation [] "" false (Or.inl rfl) rfl⟩

/-- C9: when the section scan of `_parse_post_content` accumulates no
content-section text, the parsed content is the whole stripped reply, and a
reply with non-empty stripped text always parses to non-empty content. -/
theorem c9_parse_content_fallback (reply : String) (p : SocialPlatform) :
    ((scanLines reply).content = "" → (parsePostContent reply p).content = pyStrip reply) ∧
    (pyStrip reply ≠ "" → (parsePostContent reply p).content ≠ "") := by
  constructor
  · intro h
    simp only [parsePostContent, h]
    rfl
  · intro h
    simp only [parsePostContent]
    rcases eq_or_ne (pyStrip (scanLines reply).content) "" with hc | hc
    · simpa [hc] using h
    · have hb : (pyStrip (scanLines reply).content == "") = false :=
        beq_eq_false_iff_ne.mpr hc
      simpa [hb] using hc

def replyW : String := "Hashtags: #fit #gym"

/-- C9 witness: a reply whose only line switches to the hashtag section, so no
content accumulates and the whole stripped reply becomes the content. -/
theorem c9_witness :
    (scanLines replyW).content = "" ∧ pyStrip replyW ≠ "" ∧
    (parsePostContent replyW .instagram).content = pyStrip replyW ∧
    (parsePostContent replyW .instagram).content ≠ "" :=
  ⟨by decide, by decide,
    (c9_parse_content_fallback replyW .instagram).1 (by decide),
    (c9_parse_content_fallback replyW .instagram).2 (by decide)⟩

/-! ## C3: the comprehensive-input short-circuit -/

lemma comprehensive_of_spec (msg : String)
    (h : hasNumberedMarker msg.data = true ∨
         (msg.data.length > 100 ∧
          (msg.data.count '.' > 3 ∨ msg.data.count ',' > 3))) :
    userProvidedComprehensiveInfo msg = true := by
  unfold userProvidedComprehensiveInfo
  simp only [Bool.or_eq_true, Bool.and_eq_true, decide_eq_true_eq]
  tauto

/-- C3: a message matching the comprehensive-info heuristic — a digit followed
by a period and whitespace, or length above 100 with more than three periods
or more than three commas — forces the stage to strategy_development, from any
prior stage and under any upstream behaviour. -/
theorem c3_comprehensive_forces_strategy (ctx : ConversationContext)
    (msg : String) (o : TurnOracle)
    (h : hasNumberedMarker msg.data = true ∨
         (msg.data.length > 100 ∧
          (msg.data.count '.' > 3 ∨ msg.data.count ',' > 3))) :
    (runTurn ctx msg o).2.current_stage = .strategy_development := by
  have hc := comprehensive_of_spec msg h
  unfold runTurn
  rw [if_pos hc, finishTurn_stage, comprehensiveResponse_next]
  rfl

def ctxFinalW : ConversationContext :=
  { session_id := "w3", current_stage := .finalization,
    company_info := { name := "" } }

/-- C3 witness: a numbered-list message moves even a finalization-stage
session to strategy_development. -/
theorem c3_witness :
    hasNumberedMarker ("1. canned drinks").data = true ∧
    (runTurn ctxFinalW "1. canned drinks" {}).2.current_stage = .strategy_development :=
  ⟨by decide, c3_comprehensive_forces_strategy ctxFinalW "1. canned drinks" {}
    (Or.inl (by decide))⟩

/-! ## C4: handler exceptions fail open -/

lemma processStage_raises (ctx : ConversationContext) (o : TurnOracle)
    (h : o.handlerRaises = true) :
    processConversationStage ctx o =
      ({ message := "I\x27m analyzing your information. Could you tell me more about your business goals?",
         requires_clarification := true }, ctx) := by
  unfold processConversationStage
  rw [if_pos h]

lemma continueConversation_found (store : SessionStore) (sid msg : String)
    (o : TurnOracle) (ctx : ConversationContext)
    (h : store.lookup sid = some ctx) :
    continueConversation store sid msg o =
      ({ session_id := some sid, message := some (runTurn ctx msg o).1.message,
         stage := some (runTurn ctx msg o).2.current_stage.value,
         questions := some (runTurn ctx msg o).1.questions,
         suggestions := some (runTurn ctx msg o).1.suggestions,
         requires_clarification := some (runTurn ctx msg o).1.requires_clarification,
         status := "active" }, storeSet store sid (runTurn ctx msg o).2) := by
  unfold continueConversation
  rw [h]

lemma runTurn_of_raises (ctx : ConversationContext) (msg : String) (o : TurnOracle)
    (h1 : userProvidedComprehensiveInfo msg = false) (h2 : o.handlerRaises = true) :
    (runTurn ctx msg o).1 =
      { message := "I\x27m analyzing your information. Could you tell me more about your business goals?",
        requires_clarification := true } ∧
    (runTurn ctx msg o).2.current_stage = ctx.current_stage := by
  unfold runTurn
  rw [if_neg (by simp [h1]), processStage_raises _ o h2]
  constructor
  · rfl
  · rw [finishTurn_stage]
    exact extractInformation_stage _ msg o.structParse

/-- C4: when the dispatched stage handler raises, the turn still returns a
response with status "active" and a non-empty fallback message, and the
session kept in the store has the same stage as before the turn. -/
theorem c4_handler_exception_fail_open (store : SessionStore) (sid msg : String)
    (o : TurnOracle) (ctx : ConversationContext)
    (hfound : store.lookup sid = some ctx)
    (hraise : o.handlerRaises = true)
    (hcomp : userProvidedComprehensiveInfo msg = false) :
    (continueConversation store sid msg o).1.status = "active" ∧
    (∃ m, (continueConversation store sid msg o).1.message = some m ∧ m ≠ "") ∧
    (continueConversation store sid msg o).1.stage = some ctx.current_stage.value ∧
    (continueConversation store sid msg o).2.lookup sid = some (runTurn ctx msg o).2 ∧
    (runTurn ctx msg o).2.current_stage = ctx.current_stage := by
  obtain ⟨hresp, hstage⟩ := runTurn_of_raises ctx msg o hcomp hraise
  rw [continueConversation_found store sid msg o ctx hfound]
  refine ⟨rfl, ?_, ?_, ?_, hstage⟩
  · exact ⟨_, rfl, by rw [hresp]; decide⟩
  · simp [hstage]
  · exact lookup_storeSet store sid _ (by simp [hfound])

def ctxDiscW : ConversationContext :=
  { session_id := "w4", current_stage := .discovery,
    company_info := { name := "" } }

def oRaisesW : TurnOracle := { handlerRaises := true }

/-- C4 witness: a raising handler on a concrete discovery-stage session. -/
theorem c4_witness :
    ([("w4", ctxDiscW)].lookup "w4" = some ctxDiscW) ∧
    oRaisesW.handlerRaises = true ∧
    userProvidedComprehensiveInfo "hello" = false ∧
    (continueConversation [("w4", ctxDiscW)] "w4" "hello" oRaisesW).1.status = "active" ∧
    (runTurn ctxDiscW "hello" oRaisesW).2.current_stage = ctxDiscW.current_stage :=
  ⟨by decide, rfl, by decide,
    (c4_handler_exception_fail_open [("w4", ctxDiscW)] "w4" "hello" oRaisesW ctxDiscW
      (by decide) rfl (by decide)).1,
    (c4_handler_exception_fail_open [("w4", ctxDiscW)] "w4" "hello" oRaisesW ctxDiscW
      (by decide) rfl (by decide)).2.2.2.2⟩

/-! ## C7: the strategy-stage sufficiency gate -/

lemma hasSufficient_iff (ctx : ConversationContext) :
    hasSufficientInfoForStrategy ctx = true ↔
      (ctx.company_info.name ≠ "" ∧
       (ctx.company_info.industry.isSome = true ∨
        optStrTruthy ctx.company_info.description = true) ∧
       optStrTruthy ctx.company_info.target_audience = true ∧
       (ctx.campaign_goals.primary_objective.isSome = true ∨
        optListTruthy ctx.campaign_goals.target_platforms = true)) := by
  unfold hasSufficientInfoForStrategy
  simp only [Bool.and_eq_true, Bool.or_eq_true, bne_iff_ne]
  tauto

/-- C7: the strategy handler proceeds to generation (proposing the
content_creation stage with no clarification) exactly when the profile has a
name, an industry or description, a target audience, and an objective or
platform list; otherwise it asks at most two clarifying questions, sets
requires_clarification, and proposes no stage change. -/
theorem c7_strategy_gate (ctx : ConversationContext) :
    (((developStrategy ctx).1.next_stage = some .content_creation ∧
      (developStrategy ctx).1.requires_clarification = false) ↔
      (ctx.company_info.name ≠ "" ∧
       (ctx.company_info.industry.isSome = true ∨
        optStrTruthy ctx.company_info.description = true) ∧
       optStrTruthy ctx.company_info.target_audience = true ∧
       (ctx.campaign_goals.primary_objective.isSome = true ∨
        optListTruthy ctx.campaign_goals.target_platforms = true))) ∧
    (hasSufficientInfoForStrategy ctx = false →
      (developStrategy ctx).1.questions.length ≤ 2 ∧
      (developStrategy ctx).1.requires_clarification = true ∧
      (developStrategy ctx).1.next_stage = none) := by
  constructor
  · rw [← hasSufficient_iff]
    unfold developStrategy
    cases hss : hasSufficientInfoForStrategy ctx
    · simp
    · simp
  · intro hss
    unfold developStrategy
    rw [hss]
    refine ⟨?_, rfl, rfl⟩
    simp only [strategyClarificationQuestions]
    exact List.length_take_le 2 _

def ctxInsufficientW : ConversationContext :=
  { session_id := "w7", current_stage := .strategy_development,
    company_info := { name := "" } }

/-- C7 witness: an empty profile fails the gate and gets a clarification
response with at most two questions. -/
theorem c7_witness :
    hasSufficientInfoForStrategy ctxInsufficientW = false ∧
    ((developStrategy ctxInsufficientW).1.questions.length ≤ 2 ∧
     (developStrategy ctxInsufficientW).1.requires_clarification = true ∧
     (developStrategy ctxInsufficientW).1.next_stage = none) :=
  ⟨by decide, (c7_strategy_gate ctxInsufficientW).2 (by decide)⟩

/-! ## C2: extraction and already-populated fields -/

def msgStructuredCE : String :=
  "1. We are CCC and we sell antique chairs to collectors."

def ctxSeededCE : ConversationContext := startConversation "session-ce"

/-- C2 counterexample: on the structured (comprehensive-input) extraction path
the already-populated seeded profile is overwritten — the name "ProteinRX"
becomes "CCC" and the seeded description is replaced — refuting the claim that
extraction for an already-populated field is skipped on every path. -/
theorem c2_counterexample :
    ctxSeededCE.company_info.name = "ProteinRX" ∧
    ctxSeededCE.company_info.description =
      some "Health & Fitness - Protein Smoothie Drinks" ∧
    userProvidedComprehensiveInfo msgStructuredCE = true ∧
    (extractInformation ctxSeededCE msgStructuredCE (some "ok")).company_info.name
      = "CCC" ∧
    (extractInformation ctxSeededCE msgStructuredCE (some "ok")).company_info.description
      = some "Antiques & Collectibles" ∧
    ¬ ((extractInformation ctxSeededCE msgStructuredCE (some "ok")).company_info.name
        = ctxSeededCE.company_info.name) := by
  refine ⟨rfl, rfl, by decide, by decide, by decide, by decide⟩

lemma extractNameStep_of_ne {ci : CompanyInfo} (msg lower : String)
    (h : ci.name ≠ "") : extractNameStep ci msg lower = ci := by
  unfold extractNameStep
  rw [if_neg]
  simp [beq_eq_false_iff_ne.mpr h]

lemma extractNameStep_fields (ci : CompanyInfo) (msg lower : String) :
    (extractNameStep ci msg lower).description = ci.description ∧
    (extractNameStep ci msg lower).target_audience = ci.target_audience ∧
    (extractNameStep ci msg lower).industry = ci.industry ∧
    (extractNameStep ci msg lower).brand_voice = ci.brand_voice ∧
    (extractNameStep ci msg lower).brand_values = ci.brand_values ∧
    (extractNameStep ci msg lower).unique_selling_points = ci.unique_selling_points ∧
    (extractNameStep ci msg lower).competitors = ci.competitors ∧
    (extractNameStep ci msg lower).website = ci.website := by
  unfold extractNameStep
  split
  · split <;> exact ⟨rfl, rfl, rfl, rfl, rfl, rfl, rfl, rfl⟩
  · exact ⟨rfl, rfl, rfl, rfl, rfl, rfl, rfl, rfl⟩

lemma extractDescStep_of_truthy {ci : CompanyInfo} (lower : String)
    (h : optStrTruthy ci.description = true) : extractDescStep ci lower = ci := by
  unfold extractDescStep
  rw [if_neg]
  simp [h]

lemma extractDescStep_fields (ci : CompanyInfo) (lower : String) :
    (extractDescStep ci lower).name = ci.name ∧
    (extractDescStep ci lower).target_audience = ci.target_audience ∧
    (extractDescStep ci lower).industry = ci.industry ∧
    (extractDescStep ci lower).brand_voice = ci.brand_voice ∧
    (extractDescStep ci lower).brand_values = ci.brand_values ∧
    (extractDescStep ci lower).unique_selling_points = ci.unique_selling_points ∧
    (extractDescStep ci lower).competitors = ci.competitors ∧
    (extractDescStep ci lower).website = ci.website := by
  unfold extractDescStep
  split
  · split <;> exact ⟨rfl, rfl, rfl, rfl, rfl, rfl, rfl, rfl⟩
  · exact ⟨rfl, rfl, rfl, rfl, rfl, rfl, rfl, rfl⟩

lemma extractAudStep_of_truthy {ci : CompanyInfo} (lower : String)
    (h : optStrTruthy ci.target_audience = true) : extractAudStep ci lower = ci := by
  unfold extractAudStep
  rw [if_neg]
  simp [h]

lemma extractAudStep_fields (ci : CompanyInfo) (lower : String) :
    (extractAudStep ci lower).name = ci.name ∧
    (extractAudStep ci lower).description = ci.description ∧
    (extractAudStep ci lower).industry = ci.industry ∧
    (extractAudStep ci lower).brand_voice = ci.brand_voice ∧
    (extractAudStep ci lower).brand_values = ci.brand_values ∧
    (extractAudStep ci lower).unique_selling_points = ci.unique_selling_points ∧
    (extractAudStep ci lower).competitors = ci.competitors ∧
    (extractAudStep ci lower).website = ci.website := by
  unfold extractAudStep
  split
  · split <;> exact ⟨rfl, rfl, rfl, rfl, rfl, rfl, rfl, rfl⟩
  · exact ⟨rfl, rfl, rfl, rfl, rfl, rfl, rfl, rfl⟩

/-- C2 amended: on the non-structured extraction path (messages that do not
match the comprehensive-info heuristic), an already-populated name,
description or target audience is never reassigned, and no other profile
field is touched at all; the original claim fails only on the structured
path, which overwrites populated fields (see the counterexample). -/
theorem c2_amended (ctx : ConversationContext) (msg : String) (po : Option String)
    (hcomp : userProvidedComprehensiveInfo msg = false) :
    (ctx.company_info.name ≠ "" →
      (extractInformation ctx msg po).company_info.name = ctx.company_info.name) ∧
    (optStrTruthy ctx.company_info.description = true →
      (extractInformation ctx msg po).company_info.description
        = ctx.company_info.description) ∧
    (optStrTruthy ctx.company_info.target_audience = true →
      (extractInformation ctx msg po).company_info.target_audience
        = ctx.company_info.target_audience) ∧
    (extractInformation ctx msg po).company_info.industry = ctx.company_info.industry ∧
    (extractInformation ctx msg po).company_info.brand_voice
      = ctx.company_info.brand_voice ∧
    (extractInformation ctx msg po).company_info.brand_values
      = ctx.company_info.brand_values ∧
    (extractInformation ctx msg po).company_info.unique_selling_points
      = ctx.company_info.unique_selling_points ∧
    (extractInformation ctx msg po).company_info.competitors
      = ctx.company_info.competitors := by
  have hci : (extractInformation ctx msg po).company_info
      = extractUnstructured ctx.company_info msg := by
    unfold extractInformation
    rw [if_neg (by simp [hcomp])]
  rw [hci]
  unfold extractUnstructured
  set ci := ctx.company_info with hcidef
  set n := extractNameStep ci msg (pyLower msg) with hn
  set d := extractDescStep n (pyLower msg) with hd
  obtain ⟨hnd, hna, hni, hnv, hnb, hnu, hnc, hnw⟩ := extractNameStep_fields ci msg (pyLower msg)
  obtain ⟨hdn, hda, hdi, hdv, hdb, hdu, hdc, hdw⟩ := extractDescStep_fields n (pyLower msg)
  obtain ⟨han, had, hai, hav, hab, hau, hac, haw⟩ := extractAudStep_fields d (pyLower msg)
  refine ⟨?_, ?_, ?_, ?_, ?_, ?_, ?_, ?_⟩
  · intro h
    rw [han, hdn, hn, extractNameStep_of_ne msg (pyLower msg) h]
  · intro h
    rw [had, hd, extractDescStep_of_truthy (pyLower msg) (by rw [hn, hnd]; exact h),
      hn, hnd]
  · intro h
    have hda2 : d.target_audience = ci.target_audience := by
      rw [hd, hda, hn, hna]
    rw [extractAudStep_of_truthy (pyLower msg) (by rw [hda2]; exact h), hda2]
  · rw [hai, hdi, hni]
  · rw [hav, hdv, hnv]
  · rw [hab, hdb, hnb]
  · rw [hau, hdu, hnu]
  · rw [hac, hdc, hnc]

def ciPopulatedW : CompanyInfo :=
  { name := "Bakery", description := some "Food & Bakery",
    target_audience := some "Families" }

def ctxPopulatedW : ConversationContext :=
  { session_id := "w2", current_stage := .discovery, company_info := ciPopulatedW }

/-- C2 witness: a populated profile survives a non-comprehensive message that
matches every keyword table. -/
theorem c2_amended_witness :
    userProvidedComprehensiveInfo "i sell bread to young families" = false ∧
    (extractInformation ctxPopulatedW "i sell bread to young families" none).company_info.name
      = ctxPopulatedW.company_info.name ∧
    (extractInformation ctxPopulatedW "i sell bread to young families" none).company_info.description
      = ctxPopulatedW.company_info.description ∧
    (extractInformation ctxPopulatedW "i sell bread to young families" none).company_info.target_audience
      = ctxPopulatedW.company_info.target_audience :=
  ⟨by decide,
    (c2_amended ctxPopulatedW "i sell bread to young families" none (by decide)).1
      (by decide),
    (c2_amended ctxPopulatedW "i sell bread to young families" none (by decide)).2.1
      (by decide),
    (c2_amended ctxPopulatedW "i sell bread to young families" none (by decide)).2.2.1
      (by decide)⟩

/-! ## C10: the seeded demo session -/

lemma structNameStep_name_ne {ci : CompanyInfo} (lower : String)
    (h : ci.name ≠ "") : (structNameStep ci lower).name ≠ "" := by
  unfold structNameStep
  split
  · exact (by decide : ("ProteinRX" : String) ≠ "")
  · split
    · exact (by decide : ("CCC" : String) ≠ "")
    · exact h

lemma structDescStep_name (ci : CompanyInfo) (lower : String) :
    (structDescStep ci lower).name = ci.name := by
  unfold structDescStep
  split
  · rfl
  · split
    · rfl
    · split <;> rfl

lemma structAudStep_name (ci : CompanyInfo) (msg lower : String) :
    (structAudStep ci msg lower).name = ci.name := by
  unfold structAudStep
  split
  · rfl
  · split <;> rfl

lemma structVoiceStep_name (ci : CompanyInfo) (lower : String) :
    (structVoiceStep ci lower).name = ci.name := by
  unfold structVoiceStep
  split <;> rfl

lemma structUspsStep_name (ci : CompanyInfo) (lower : String) :
    (structUspsStep ci lower).name = ci.name := by
  unfold structUspsStep
  repeat' split
  all_goals rfl

lemma structCompetitorStep_name (ci : CompanyInfo) (lower : String) :
    (structCompetitorStep ci lower).name = ci.name := by
  unfold structCompetitorStep
  split <;> rfl

lemma extractStructured_name_ne (ctx : ConversationContext) (msg : String)
    (po : Option String) (h : ctx.company_info.name ≠ "") :
    (extractStructured ctx msg po).company_info.name ≠ "" := by
  cases po with
  | none => exact h
  | some r =>
    have hred : (extractStructured ctx msg (some r)).company_info =
        structCompetitorStep (structUspsStep (structVoiceStep (structAudStep
          (structDescStep (structNameStep ctx.company_info (pyLower msg))
            (pyLower msg)) msg (pyLower msg)) (pyLower msg)) (pyLower msg))
          (pyLower msg) := rfl
    rw [hred, structCompetitorStep_name, structUspsStep_name, structVoiceStep_name,
      structAudStep_name, structDescStep_name]
    exact structNameStep_name_ne (pyLower msg) h

lemma extractUnstructured_name_ne (ci : CompanyInfo) (msg : String)
    (h : ci.name ≠ "") : (extractUnstructured ci msg).name ≠ "" := by
  unfold extractUnstructured
  rw [(extractAudStep_fields _ _).1, (extractDescStep_fields _ _).1,
    extractNameStep_of_ne msg _ h]
  exact h

lemma extractInformation_name_ne (ctx : ConversationContext) (msg : String)
    (po : Option String) (h : ctx.company_info.name ≠ "") :
    (extractInformation ctx msg po).company_info.name ≠ "" := by
  unfold extractInformation
  split
  · exact extractStructured_name_ne ctx msg po h
  · exact extractUnstructured_name_ne ctx.company_info msg h

lemma analyzeConversation_advance {ctx : ConversationContext}
    (oq os : Option String) (h : ctx.company_info.name ≠ "") :
    (analyzeConversation ctx oq os).next_stage = some .strategy_development ∧
    (analyzeConversation ctx oq os).requires_clarification = false ∧
    (analyzeConversation ctx oq os).questions = [] := by
  have hb : hasBasicInfoBA ctx = true := by
    unfold hasBasicInfoBA
    simp only [Bool.or_eq_true, bne_iff_ne]
    exact Or.inl h
  unfold analyzeConversation
  rw [if_neg]
  · cases os <;> exact ⟨rfl, rfl, rfl⟩
  · simp [hb]

/-- C10: `start_conversation` seeds a fully populated demo profile and goals,
so the strategy sufficiency check already holds at creation; extraction keeps
the name non-empty on every path, and with a non-empty name the
discovery/brand-analysis handler can never take the question-asking branch —
it always advances to strategy_development with no questions. -/
theorem c10_seeded_session :
    (∀ sid : String,
      (startConversation sid).company_info.name ≠ "" ∧
      (startConversation sid).company_info.industry.isSome = true ∧
      optStrTruthy (startConversation sid).company_info.description = true ∧
      optStrTruthy (startConversation sid).company_info.target_audience = true ∧
      optStrTruthy (startConversation sid).company_info.brand_voice = true ∧
      (startConversation sid).campaign_goals.primary_objective.isSome = true ∧
      optListTruthy (startConversation sid).campaign_goals.target_platforms = true ∧
      hasSufficientInfoForStrategy (startConversation sid) = true) ∧
    (∀ (ctx : ConversationContext) (msg : String) (po : Option String),
      ctx.company_info.name ≠ "" →
      (extractInformation ctx msg po).company_info.name ≠ "") ∧
    (∀ (ctx : ConversationContext) (oq os : Option String),
      ctx.company_info.name ≠ "" →
      (analyzeConversation ctx oq os).next_stage = some .strategy_development ∧
      (analyzeConversation ctx oq os).requires_clarification = false ∧
      (analyzeConversation ctx oq os).questions = []) := by
  refine ⟨fun sid => ⟨?_, rfl, rfl, rfl, rfl, rfl, rfl, rfl⟩,
    fun ctx msg po h => extractInformation_name_ne ctx msg po h,
    fun ctx oq os h => analyzeConversation_advance oq os h⟩
  exact (by decide : ("ProteinRX" : String) ≠ "")

/-- C10 witness: the seeded session at a concrete identifier. -/
theorem c10_witness :
    (startConversation "w10").company_info.name ≠ "" ∧
    hasSufficientInfoForStrategy (startConversation "w10") = true ∧
    (extractInformation (startConversation "w10") "hello" none).company_info.name ≠ "" ∧
    (analyzeConversation (startConversation "w10") none none).next_stage
      = some .strategy_development :=
  ⟨(c10_seeded_session.1 "w10").1,
   (c10_seeded_session.1 "w10").2.2.2.2.2.2.2,
   c10_seeded_session.2.1 (startConversation "w10") "hello" none
     (c10_seeded_session.1 "w10").1,
   (c10_seeded_session.2.2 (startConversation "w10") none none
     (c10_seeded_session.1 "w10").1).1⟩

/-! ## C1: stage monotonicity -/

def ctxReviewCE : ConversationContext :=
  { session_id := "ce1", current_stage := .review_refinement,
    company_info := proteinrxCompany, campaign_goals := proteinrxGoals }

/-- C1 counterexample: a review_refinement session with no campaign output,
given a plain non-comprehensive message, moves backward to content_creation —
neither a forward move, nor the comprehensive-input jump, nor an unchanged
stage, refuting the claimed invariant at this input. -/
theorem c1_counterexample :
    ctxReviewCE.current_stage = .review_refinement ∧
    ctxReviewCE.campaign_output = none ∧
    userProvidedComprehensiveInfo "ok" = false ∧
    (runTurn ctxReviewCE "ok" {}).2.current_stage = .content_creation ∧
    ¬ (stageIndex ctxReviewCE.current_stage ≤
         stageIndex (runTurn ctxReviewCE "ok" {}).2.current_stage ∨
       (userProvidedComprehensiveInfo "ok" = true ∧
         (runTurn ctxReviewCE "ok" {}).2.current_stage = .strategy_development) ∨
       (runTurn ctxReviewCE "ok" {}).2.current_stage = ctxReviewCE.current_stage) :=
  ⟨rfl, rfl, by decide, by decide, by decide⟩

lemma handleGreetingStage_next (ctx : ConversationContext) (o1 o2 : Option String) :
    (handleGreetingStage ctx o1 o2).next_stage = none ∨
    (handleGreetingStage ctx o1 o2).next_stage = some .strategy_development := by
  unfold handleGreetingStage
  split
  · split
    · cases o1
      · cases o2
        · right; rfl
        · right; rfl
      · right; rfl
    · left; rfl
  · left; rfl

lemma analyzeConversation_next (ctx : ConversationContext) (oq os : Option String) :
    (analyzeConversation ctx oq os).next_stage = some .discovery ∨
    (analyzeConversation ctx oq os).next_stage = some .strategy_development := by
  unfold analyzeConversation
  by_cases hq : (!(identifyMissingInformation ctx).isEmpty &&
      decide (discoveryTurns ctx < 3) && !hasBasicInfoBA ctx) = true
  · left
    rw [if_pos hq]
  · rw [if_neg hq]
    cases os
    · right; rfl
    · right; rfl

lemma developStrategy_next (ctx : ConversationContext) :
    (developStrategy ctx).1.next_stage = none ∨
    (developStrategy ctx).1.next_stage = some .content_creation := by
  unfold developStrategy
  split
  · left; rfl
  · right; rfl

lemma developStrategy_snd_stage (ctx : ConversationContext) :
    (developStrategy ctx).2.current_stage = ctx.current_stage := by
  unfold developStrategy
  split <;> rfl

lemma createCampaignContent_next (ctx : ConversationContext)
    (posts : List SocialPost) (hs : String) (cr : Bool) :
    (createCampaignContent ctx posts hs cr).1.next_stage = none ∨
    (createCampaignContent ctx posts hs cr).1.next_stage = some .review_refinement := by
  unfold createCampaignContent
  split
  · left; rfl
  · split
    · left; rfl
    · right; rfl

lemma createCampaignContent_snd_stage (ctx : ConversationContext)
    (posts : List SocialPost) (hs : String) (cr : Bool) :
    (createCampaignContent ctx posts hs cr).2.current_stage = ctx.current_stage := by
  unfold createCampaignContent
  split
  · rfl
  · split <;> rfl

lemma handleReviewStage_next (ctx : ConversationContext) :
    ((handleReviewStage ctx).next_stage = some .content_creation ∧
      ctx.campaign_output = none) ∨
    (handleReviewStage ctx).next_stage = some .finalization := by
  unfold handleReviewStage
  cases h : ctx.campaign_output with
  | none => left; exact ⟨rfl, rfl⟩
  | some out => right; rfl

lemma handleFinalizationStage_next (ctx : ConversationContext) :
    ((handleFinalizationStage ctx).next_stage = some .content_creation ∧
      ctx.campaign_output = none) ∨
    (handleFinalizationStage ctx).next_stage = none := by
  unfold handleFinalizationStage
  cases h : ctx.campaign_output with
  | none => left; exact ⟨rfl, rfl⟩
  | some out => right; rfl

lemma processStage_snd_stage (ctx : ConversationContext) (o : TurnOracle) :
    (processConversationStage ctx o).2.current_stage = ctx.current_stage := by
  unfold processConversationStage
  split
  · rfl
  · cases h : ctx.current_stage
    case greeting => exact h
    case discovery => exact h
    case brand_analysis => exact h
    case strategy_development => rw [developStrategy_snd_stage]; exact h
    case content_creation => rw [createCampaignContent_snd_stage]; exact h
    case review_refinement => exact h
    case finalization => exact h

lemma processStage_next_cases (ctx : ConversationContext) (o : TurnOracle) :
    (processConversationStage ctx o).1.next_stage = none ∨
    ((processConversationStage ctx o).1.next_stage = some .strategy_development ∧
      stageIndex ctx.current_stage ≤ 3) ∨
    ((processConversationStage ctx o).1.next_stage = some .discovery ∧
      (ctx.current_stage = .discovery ∨ ctx.current_stage = .brand_analysis)) ∨
    ((processConversationStage ctx o).1.next_stage = some .content_creation ∧
      (ctx.current_stage = .strategy_development ∨
       ((ctx.current_stage = .review_refinement ∨ ctx.current_stage = .finalization) ∧
        ctx.campaign_output = none))) ∨
    ((processConversationStage ctx o).1.next_stage = some .review_refinement ∧
      ctx.current_stage = .content_creation) ∨
    ((processConversationStage ctx o).1.next_stage = some .finalization ∧
      ctx.current_stage = .review_refinement) := by
  by_cases hr : o.handlerRaises = true
  · rw [processStage_raises ctx o hr]
    left; rfl
  · unfold processConversationStage
    rw [if_neg hr]
    cases h : ctx.current_stage
    · rcases handleGreetingStage_next ctx o.greet1 o.greet2 with hg | hg
      · left; exact hg
      · right; left; exact ⟨hg, by decide⟩
    · rcases analyzeConversation_next ctx o.brandQ o.brandSum with ha | ha
      · right; right; left; exact ⟨ha, Or.inl rfl⟩
      · right; left; exact ⟨ha, by decide⟩
    · rcases analyzeConversation_next ctx o.brandQ o.brandSum with ha | ha
      · right; right; left; exact ⟨ha, Or.inr rfl⟩
      · right; left; exact ⟨ha, by decide⟩
    · rcases developStrategy_next ctx with hs | hs
      · left; exact hs
      · right; right; right; left; exact ⟨hs, Or.inl rfl⟩
    · rcases createCampaignContent_next ctx o.genPosts o.hashtagStrategy
        o.contentRaises with hc | hc
      · left; exact hc
      · right; right; right; right; left; exact ⟨hc, rfl⟩
    · rcases handleReviewStage_next ctx with ⟨hn, hout⟩ | hn
      · right; right; right; left; exact ⟨hn, Or.inr ⟨Or.inl rfl, hout⟩⟩
      · right; right; right; right; right; exact ⟨hn, rfl⟩
    · rcases handleFinalizationStage_next ctx with ⟨hn, hout⟩ | hn
      · right; right; right; left; exact ⟨hn, Or.inr ⟨Or.inr rfl, hout⟩⟩
      · left; exact hn

/-- C1 amended: across one `continue_conversation` turn the stage never moves
backward in the canonical ordering except for (a) the comprehensive-input jump
to strategy_development, which fires from any stage including later ones,
(b) error fallbacks that leave the stage unchanged (covered by the
non-decreasing disjunct), (c) the missing-output loop-back from
review_refinement or finalization to content_creation, and (d) the
discovery-questions branch reached from the brand_analysis stage, which
proposes discovery. -/
theorem c1_amended (ctx : ConversationContext) (msg : String) (o : TurnOracle) :
    stageIndex ctx.current_stage ≤ stageIndex (runTurn ctx msg o).2.current_stage ∨
    (userProvidedComprehensiveInfo msg = true ∧
      (runTurn ctx msg o).2.current_stage = .strategy_development) ∨
    ((ctx.current_stage = .review_refinement ∨ ctx.current_stage = .finalization) ∧
      ctx.campaign_output = none ∧
      (runTurn ctx msg o).2.current_stage = .content_creation) ∨
    (ctx.current_stage = .brand_analysis ∧
      (runTurn ctx msg o).2.current_stage = .discovery) := by
  by_cases hc : userProvidedComprehensiveInfo msg = true
  · right; left
    refine ⟨hc, ?_⟩
    unfold runTurn
    rw [if_pos hc, finishTurn_stage, comprehensiveResponse_next]
    rfl
  · have hstage2 : (extractInformation
        { ctx with messages := addMessage ctx.messages ⟨.user, msg⟩ }
        msg o.structParse).current_stage = ctx.current_stage :=
      extractInformation_stage _ msg o.structParse
    have hout2 : (extractInformation
        { ctx with messages := addMessage ctx.messages ⟨.user, msg⟩ }
        msg o.structParse).campaign_output = ctx.campaign_output :=
      extractInformation_output _ msg o.structParse
    have hrun : (runTurn ctx msg o).2.current_stage =
        (processConversationStage (extractInformation
          { ctx with messages := addMessage ctx.messages ⟨.user, msg⟩ }
          msg o.structParse) o).1.next_stage.getD ctx.current_stage := by
      unfold runTurn
      rw [if_neg hc, finishTurn_stage, processStage_snd_stage, hstage2]
    rw [hrun]
    rcases processStage_next_cases (extractInformation
        { ctx with messages := addMessage ctx.messages ⟨.user, msg⟩ }
        msg o.structParse) o with h | ⟨h, hle⟩ | ⟨h, hd⟩ | ⟨h, hd⟩ | ⟨h, hd⟩ | ⟨h, hd⟩
    · left
      rw [h, Option.getD_none]
    · left
      rw [h, Option.getD_some]
      rw [hstage2] at hle
      exact hle
    · rw [hstage2] at hd
      rcases hd with hd | hd
      · left
        rw [h, Option.getD_some, hd]
      · right; right; right
        exact ⟨hd, by rw [h, Option.getD_some]⟩
    · rcases hd with hd | ⟨hd1, hd2⟩
      · left
        rw [h, Option.getD_some]
        rw [hstage2] at hd
        rw [hd]
        decide
      · right; right; left
        rw [hstage2] at hd1
        rw [hout2] at hd2
        exact ⟨hd1, hd2, by rw [h, Option.getD_some]⟩
    · left
      rw [h, Option.getD_some]
      rw [hstage2] at hd
      rw [hd]
      decide
    · left
      rw [h, Option.getD_some]
      rw [hstage2] at hd
      rw [hd]
      decide

end Campaign
